import Mathlib

set_option maxRecDepth 65536

/-!
Shallow embedding of `src/hazardAnalysisAudits.js` (Hazard-Analysis-Audit repository).

The module audits the "Hazard Analysis" sub-task of a Jira issue.  Collaborator
functions (`jiraHelpers`, `auditHelpers`, the shared `subTaskAudits` / `commonAudits`
checks and the `AuditDetails` container) live outside `src/`; they are modelled at
their interface boundary: pure lookups become fields of an `Env` record, and every
side-effecting collaborator call is recorded as an `Effect` in an explicit trace
returned next to each function's result.

The five template regular expressions of `hazardAnalysisComplete` are embedded by a
small backtracking matcher (`Rx`) whose constructors correspond exactly to the
JavaScript regex constructs appearing in the source patterns (case-insensitive
literals, greedy `x?` / `x*` / `\W*` / `\s*` / `.+`, lazy `.+?`, one capture group,
alternation), with JavaScript's leftmost-first backtracking order.
-/

namespace HazardAnalysis

/-! ## Data model -/

/-- Resolution object of a Jira issue (`issue.fields.resolution`), carrying a name. -/
structure Resolution where
  name : String
deriving DecidableEq, Repr

/-- An entry of `issue.fields.issuelinks`; the link itself is opaque to the module,
which only passes it to the collaborator predicates, so it is modelled by a key. -/
structure IssueLink where
  linkKey : String
deriving DecidableEq, Repr

/-- The fields of an issue that `src/hazardAnalysisAudits.js` reads directly.
`resolutionDate` is the epoch-milliseconds value of
`new Date(issue.fields[JIRA2_FIELDS.RESOLUTION_DATE])`; `none` models a missing or
unparsable field (an Invalid Date, whose comparisons are all false in JavaScript). -/
structure IssueFields where
  resolutionDate : Option Int := none
  resolution : Option Resolution := none
  description : String := ""
  issuelinks : List IssueLink := []
deriving DecidableEq, Repr

/-- An issue snapshot, identified by its key. -/
structure Issue where
  key : String
  fields : IssueFields := {}
deriving DecidableEq, Repr

/-- Modelled from the spec: the `AuditDetails` result container (`../AuditDetails`,
not under `src/`).  Per the spec it carries a name, a subject issue, a pass flag and
a detail string; the constructor `new AuditDetails(name, subject)` sets only the name
and the subject, so the flag and the detail start unset (`none`) and become `some`
exactly when the audited module assigns them. -/
structure AuditDetails where
  auditName : String
  subject : Issue
  auditPassing : Option Bool := none
  auditDetails : Option String := none
deriving DecidableEq, Repr

/-- `new AuditDetails(name, subject)`. -/
def AuditDetails.init (name : String) (subject : Issue) : AuditDetails :=
  { auditName := name, subject := subject }

/-- JavaScript truthiness of the `auditPassing` field, as read by
`!audit.auditPassing` and `audit => audit.auditPassing` in the source
(an unset field is `undefined`, which is falsy). -/
def AuditDetails.truthyPassing (a : AuditDetails) : Bool :=
  a.auditPassing.getD false

/-- Modelled from the spec: the aggregate audit built by `runHazardAnalysisAudits`,
whose `addAuditResults` method (defined in the external `AuditDetails` class) collects
partial results; per the spec the aggregate passes iff every member passes. -/
structure AggregateAudit where
  base : AuditDetails
  results : List AuditDetails := []
deriving DecidableEq, Repr

/-- `hazardAnalysisAuditDetails.addAuditResults(auditDetail)` with a single result. -/
def AggregateAudit.add (agg : AggregateAudit) (r : AuditDetails) : AggregateAudit :=
  { agg with results := agg.results ++ [r] }

/-- `hazardAnalysisAuditDetails.addAuditResults(allAuditResults)` with an array. -/
def AggregateAudit.addAll (agg : AggregateAudit) (rs : List AuditDetails) : AggregateAudit :=
  { agg with results := agg.results ++ rs }

/-- Modelled from the spec: "the aggregate passes iff every member passes"; a pass
flag assigned directly on the aggregate (grandfather branch) also participates, and
an unset base flag constrains nothing. -/
def AggregateAudit.passing (agg : AggregateAudit) : Bool :=
  agg.base.auditPassing.getD true && agg.results.all (·.truthyPassing)

/-- One observable collaborator call (`jiraHelpers` / shared checks); the audit
functions return the ordered trace of these next to their result. -/
inductive Effect where
  | postFailureComment (target : Issue) (auditName : String) (distinguishSubTask : Bool)
  | removeFailureComment (target : Issue) (auditName : String)
  | removeFailureCommentByName (target : Issue) (auditName : String)
  | handlePassFail (target : Issue) (auditName : String)
  | getIssueFromLink (link : IssueLink)
  | subTaskClosedCheck (target : Issue)
  | isAssigneeIndicatedCheck (target : Issue)
  | findPlusOneComments (target : Issue)
deriving DecidableEq, Repr

/-- The collaborator interface consumed by the module (helpers outside `src/`),
modelled as pure lookups specialised to the Hazard-Analysis sub-task name:
`getSubTaskByName issue` is `jiraHelpers.getSubTaskByName(issue, SUBTASK_NAMES.HAZARD_ANALYSIS)`,
`issueContainsIgnoreLabel` is `jiraHelpers.issueContainsAnyLabel(issue, [IGNORE_AUDIT_LABELS.HAZARD_ANALYSIS])`,
`isSubtaskLinkOfType link` is `jiraHelpers.isSubtaskLinkOfType(link, SUBTASK_NAMES.HAZARD_ANALYSIS)`,
`findPlusOneCommentsLen` is the length of `jiraHelpers.findPlusOneComments(issue)`,
`subTaskClosed` / `isAssigneeIndicated` are the shared audit-library checks, and
`generateAuditCommentText` renders one audit result as comment text. -/
structure Env where
  getSubTaskByName : Issue → Option Issue
  issueContainsIgnoreLabel : Issue → Bool
  issueHasNoWorkNeededResolution : Issue → Bool
  isSubtaskLinkOfType : IssueLink → Bool
  getIssueFromLink : IssueLink → Issue
  findPlusOneCommentsLen : Issue → Nat
  subTaskClosed : Issue → AuditDetails
  isAssigneeIndicated : Issue → AuditDetails
  generateAuditCommentText : AuditDetails → String

/-! ## Dates -/

/-- Epoch milliseconds of `new Date("2019-04-22")`, the audit-enforcement cutoff. -/
def hazardAuditCutoffMillis : Int := 1555891200000

/-- `new Date(issue.fields[JIRA2_FIELDS.RESOLUTION_DATE]) < new Date("2019-04-22")`;
an invalid/missing date is NaN in JavaScript and every comparison with NaN is false. -/
def resolutionBeforeCutoff (issue : Issue) : Bool :=
  match issue.fields.resolutionDate with
  | some t => t < hazardAuditCutoffMillis
  | none => false

/-- `issue.fields.resolution.name` as read on a resolved issue; on a `null`
resolution the JavaScript source would throw, the model yields `""`. -/
def jsResolutionName (issue : Issue) : String :=
  match issue.fields.resolution with
  | some r => r.name
  | none => ""

/-! ## Regex engine

A backtracking matcher for exactly the constructs used by the five patterns of
`hazardAnalysisComplete`, in JavaScript order (leftmost alternative first, greedy
quantifiers longest-first, lazy quantifiers shortest-first), with the `i` flag
(ASCII case-insensitive), the `s` flag (`.` also matches newlines) and one capture
group.  The `m` flag of the source patterns is irrelevant: none of them contains
`^` or `$`. -/

/-- ASCII lower-casing, for the `i` flag. -/
def lcChar (c : Char) : Char :=
  if 'A' ≤ c ∧ c ≤ 'Z' then Char.ofNat (c.toNat + 32) else c

/-- Case-insensitive character comparison. -/
def ciEq (a b : Char) : Bool := lcChar a == lcChar b

/-- JavaScript word character (`\w` is `[A-Za-z0-9_]`), for `\W`. -/
def isWordChar (c : Char) : Bool :=
  ('a' ≤ c ∧ c ≤ 'z') || ('A' ≤ c ∧ c ≤ 'Z') || ('0' ≤ c ∧ c ≤ '9') || c == '_'

/-- JavaScript whitespace (`\s`), restricted to the ASCII range that can occur in
the strings handled here. -/
def isSpaceJS (c : Char) : Bool :=
  c == ' ' || c == '\t' || c == '\n' || c == '\r' || c == '\x0b' || c == '\x0c'

/-- Regex abstract syntax: one constructor per construct occurring in the source
patterns. -/
inductive Rx where
  /-- a case-insensitive literal string -/
  | lit (s : String)
  /-- greedy optional literal character, for `\*?` and `[>]?` -/
  | optChar (c : Char)
  /-- greedy literal-character star, for `\**` -/
  | starChar (c : Char)
  /-- `\W*` (greedy) -/
  | nonWordStar
  /-- `\s*` (greedy) -/
  | spaceStar
  /-- `.+?` under the `s` flag (lazy, any character) -/
  | dotPlusLazy
  /-- `.+` under the `s` flag (greedy, any character) -/
  | dotPlusGreedy
  /-- the capture group `( ... )` (group 1) -/
  | grp (r : Rx)
  | seq (a b : Rx)
  | alt (a b : Rx)
deriving Repr

/-- Match a case-insensitive literal at the head of the input, returning the rest. -/
def litMatch : List Char → List Char → Option (List Char)
  | [], input => some input
  | _ :: _, [] => none
  | p :: ps, c :: cs => if ciEq p c then litMatch ps cs else none

/-- Greedy `p*` under continuation `k`: longest consumption is tried first. -/
def greedyStar {α : Type} (p : Char → Bool) :
    List Char → Option (List Char) → (List Char → Option (List Char) → Option α) →
    Option α
  | [], cap, k => k [] cap
  | c :: cs, cap, k =>
    if p c then (greedyStar p cs cap k) <|> k (c :: cs) cap else k (c :: cs) cap

/-- Lazy `.+?` (dotall) under continuation `k`: shortest consumption (≥ 1) first. -/
def lazyPlus {α : Type} :
    List Char → Option (List Char) → (List Char → Option (List Char) → Option α) →
    Option α
  | [], _, _ => none
  | _ :: cs, cap, k => (k cs cap) <|> lazyPlus cs cap k

/-- Greedy `.+` (dotall) under continuation `k`: longest consumption (≥ 1) first. -/
def greedyPlus {α : Type} :
    List Char → Option (List Char) → (List Char → Option (List Char) → Option α) →
    Option α
  | [], _, _ => none
  | _ :: cs, cap, k => (greedyPlus cs cap k) <|> k cs cap

/-- Backtracking matcher in continuation style.  `cap` is the current value of
capture group 1; the continuation receives the remaining input and the capture.
Alternatives are explored in JavaScript order, so the first success delivered to
the top-level continuation is the JavaScript match. -/
def Rx.mtch {α : Type} :
    Rx → List Char → Option (List Char) → (List Char → Option (List Char) → Option α) →
    Option α
  | .lit s, input, cap, k =>
    match litMatch s.data input with
    | some rest => k rest cap
    | none => none
  | .optChar c, input, cap, k =>
    match input with
    | [] => k [] cap
    | x :: xs => if ciEq x c then (k xs cap) <|> k (x :: xs) cap else k (x :: xs) cap
  | .starChar c, input, cap, k => greedyStar (fun x => ciEq x c) input cap k
  | .nonWordStar, input, cap, k => greedyStar (fun x => !(isWordChar x)) input cap k
  | .spaceStar, input, cap, k => greedyStar isSpaceJS input cap k
  | .dotPlusLazy, input, cap, k => lazyPlus input cap k
  | .dotPlusGreedy, input, cap, k => greedyPlus input cap k
  | .grp r, input, cap, k =>
    r.mtch input cap (fun rest _ => k rest (some (input.take (input.length - rest.length))))
  | .seq a b, input, cap, k => a.mtch input cap (fun rest c => b.mtch rest c k)
  | .alt a b, input, cap, k => (a.mtch input cap k) <|> (b.mtch input cap k)

/-- First match of `r` at the very start of `input`: its length and group 1. -/
def matchAt (r : Rx) (input : List Char) : Option (Nat × Option (List Char)) :=
  r.mtch input none (fun rest cap => some (input.length - rest.length, cap))

/-- All matches, scanning left to right and continuing after each match, as the
`g` flag does (a zero-length match advances by one character). -/
def scanMatches (r : Rx) : Nat → List Char → List (List Char)
  | 0, _ => []
  | _ + 1, [] =>
    match matchAt r [] with
    | some _ => [[]]
    | none => []
  | fuel + 1, c :: cs =>
    match matchAt r (c :: cs) with
    | some (len, _) =>
      if len == 0 then [] :: scanMatches r fuel cs
      else (c :: cs).take len :: scanMatches r fuel ((c :: cs).drop len)
    | none => scanMatches r fuel cs

/-- `str.match(r)` with the `g` flag: the array of matched substrings, or `null`
(`none`) when there is no match. -/
def jsMatch (r : Rx) (s : String) : Option (List String) :=
  match scanMatches r (s.data.length + 1) s.data with
  | [] => none
  | ms => some (ms.map (fun l => String.mk l))

/-- `arr.toString()` on a JavaScript array of strings: comma-joined. -/
def joinComma (xs : List String) : String := String.intercalate "," xs

/-- Replacement scan shared by `str.replace(r, '$1')` (`useGroup = true`, an
unmatched group yields the empty string) and `str.replace(r, "")`. -/
def scanReplace (r : Rx) (useGroup : Bool) : Nat → List Char → List Char
  | 0, input => input
  | _ + 1, [] =>
    match matchAt r [] with
    | some (_, cap) => if useGroup then cap.getD [] else []
    | none => []
  | fuel + 1, c :: cs =>
    match matchAt r (c :: cs) with
    | some (len, cap) =>
      let repl := if useGroup then cap.getD [] else []
      if len == 0 then repl ++ c :: scanReplace r useGroup fuel cs
      else repl ++ scanReplace r useGroup fuel ((c :: cs).drop len)
    | none => c :: scanReplace r useGroup fuel cs

/-- `str.replace(r, '$1')` / `str.replace(r, "")` with the `g` flag. -/
def jsReplaceAll (r : Rx) (useGroup : Bool) (s : String) : String :=
  String.mk (scanReplace r useGroup (s.data.length + 1) s.data)

/-- `/(\S+)/im.test(str)`: true iff the string has a non-whitespace character. -/
def fillCheckTest (s : String) : Bool :=
  s.data.any (fun c => !(isSpaceJS c))

/-! ## The five template patterns -/

/-- `/Financial\:\*?(.+?[>]?)\W*Legal\/Regulatory/gims` -/
def financialRegex : Rx :=
  .seq (.lit "Financial:")
    (.seq (.optChar '*')
      (.seq (.grp (.seq .dotPlusLazy (.optChar '>')))
        (.seq .nonWordStar (.lit "Legal/Regulatory"))))

/-- `/Legal\/Regulatory\:\*?(.+?[>]?)\W*Data Integrity/gims` -/
def legalRegex : Rx :=
  .seq (.lit "Legal/Regulatory:")
    (.seq (.optChar '*')
      (.seq (.grp (.seq .dotPlusLazy (.optChar '>')))
        (.seq .nonWordStar (.lit "Data Integrity"))))

/-- `/Data Integrity\:\*?(.+?[>]?)\W*Patient Safety/gmis` -/
def dataRegex : Rx :=
  .seq (.lit "Data Integrity:")
    (.seq (.optChar '*')
      (.seq (.grp (.seq .dotPlusLazy (.optChar '>')))
        (.seq .nonWordStar (.lit "Patient Safety"))))

/-- `/Patient Safety\:\*?(.+?[>]?)\W*CyberSecurity\/Information Security/gmis` -/
def patientRegex : Rx :=
  .seq (.lit "Patient Safety:")
    (.seq (.optChar '*')
      (.seq (.grp (.seq .dotPlusLazy (.optChar '>')))
        (.seq .nonWordStar (.lit "CyberSecurity/Information Security"))))

/-- `/CyberSecurity\/Information Security\:(.+)/gims` — note: no `\*?` after the
colon, unlike the four patterns above. -/
def cyberSecurityRegex : Rx :=
  .seq (.lit "CyberSecurity/Information Security:") (.grp .dotPlusGreedy)

/-- `/\s*\<yes or no\. if yes, explain why\>|\<yes\/no\>\s*/gims` — the alternation
splits the whole pattern in two. -/
def yesNoRegex : Rx :=
  .alt (.seq .spaceStar (.lit "<yes or no. if yes, explain why>"))
    (.seq (.lit "<yes/no>") .spaceStar)

/-- `/\**\s*Engineer.+/gims`, used to strip the trailing signature block. -/
def engineerRegex : Rx :=
  .seq (.starChar '*') (.seq .spaceStar (.seq (.lit "Engineer") .dotPlusGreedy))

/-! ## Message text -/

/-- `templateLink` from the source head. -/
def templateLink : String := "https://jira2.cerner.com/browse/MPAGESCORE-30188"

/-- The template-mismatch message of `hazardAnalysisComplete`, shared by the five
question blocks up to the leading question name (the template literal spans two
source lines, hence the embedded newline and indentation). -/
def mismatchMsg (questionName : String) : String :=
  questionName ++
    " description does not match expected description for Hazard Analysis. You can copy the description directly from the Perform Hazard Analysis \n            sub-task found in the Story and Defect template; please clone Jira stories from the [Story and Defect template|"
    ++ templateLink ++ "]"

/-- Detail of the grandfather (pre-cutoff) automatic pass. -/
def grandfatherDetail : String :=
  "This audit is being ignored since the issue was resolved prior to the audit introduction date of April 22nd, 2019"

/-- Detail of the missing-sub-task failure. -/
def subTaskRequiredDetail : String :=
  "A Hazard Analysis sub-task is required for all stories; please clone Jira stories from the [Story and Defect template|"
    ++ templateLink ++ "]."

/-- Detail of the invalid no-work-needed failure. -/
def noWorkNeededFailDetail : String :=
  "Hazard analysis is required for all stories.  It is not valid to close this sub-task as not needing any work.  If the "
    ++ "hazard analysis has been created under another Hazard Analysis sub-task, please link directly to that sub-task via a _JIRA Issue_ link so it can be audited."

/-! ## The audited module's functions -/

/-- `issueHasHazardAnalysisSubTask(issue)` (source lines 149–176). -/
def issueHasHazardAnalysisSubTask (env : Env) (issue : Issue) : AuditDetails × List Effect :=
  let base := AuditDetails.init "Issue Requires A Hazard Analysis Sub-Task" issue
  match env.getSubTaskByName issue with
  | none =>
    ({ base with auditDetails := some subTaskRequiredDetail, auditPassing := some false },
     [.postFailureComment issue "Issue Requires A Hazard Analysis Sub-Task" false])
  | some _ =>
    ({ base with
        auditDetails := some "Hazard Analysis sub-task is required and present",
        auditPassing := some true },
     [.removeFailureComment issue "Issue Requires A Hazard Analysis Sub-Task"])

/-- `isNoWorkNeededResolutionValid(parentIssue, subTask)` (source lines 186–217). -/
def isNoWorkNeededResolutionValid (env : Env) (parentIssue subTask : Issue) :
    Option AuditDetails × List Effect :=
  let base := AuditDetails.init "Hazard Analysis No Work Needed Resolution Validation" subTask
  if !(env.issueHasNoWorkNeededResolution subTask) then
    (none, [.removeFailureComment subTask "Hazard Analysis No Work Needed Resolution Validation"])
  else if env.issueHasNoWorkNeededResolution parentIssue then
    (some { base with
        auditDetails := some ("Hazard analysis resolution of " ++ jsResolutionName subTask
          ++ " is valid since the parent issue was closed with a "
          ++ jsResolutionName parentIssue ++ " resolution."),
        auditPassing := some true },
     [.removeFailureComment subTask "Hazard Analysis No Work Needed Resolution Validation"])
  else
    (some { base with auditDetails := some noWorkNeededFailDetail, auditPassing := some false },
     [.postFailureComment subTask "Hazard Analysis No Work Needed Resolution Validation" false])

/-- `hazardAnalysisComplete(issue)` (source lines 224–378): the five question blocks
in source order, each first matching the header-to-header pattern (`null` means a
template mismatch: fail without posting), then stripping the match down to the
answer and the placeholder text, and failing fast with a posted comment when no
non-whitespace answer remains. -/
def hazardAnalysisComplete (issue : Issue) : AuditDetails × List Effect :=
  let base := AuditDetails.init "Hazard Analysis Completed" issue
  let descriptionBody := issue.fields.description
  match jsMatch financialRegex descriptionBody with
  | none =>
    ({ base with auditDetails := some (mismatchMsg "Financial"), auditPassing := some false }, [])
  | some arr =>
    let tempStr := jsReplaceAll yesNoRegex false
      (jsReplaceAll financialRegex true (joinComma arr))
    if !(fillCheckTest tempStr) then
      ({ base with
          auditDetails := some "The financial question of the Hazard analysis must be answered.",
          auditPassing := some false },
       [.postFailureComment issue "Hazard Analysis Completed" true])
    else
      match jsMatch legalRegex descriptionBody with
      | none =>
        ({ base with
            auditDetails := some (mismatchMsg "Legal/Regulatory"),
            auditPassing := some false }, [])
      | some arr =>
        let tempStr := jsReplaceAll yesNoRegex false
          (jsReplaceAll legalRegex true (joinComma arr))
        if !(fillCheckTest tempStr) then
          ({ base with
              auditDetails := some "The legal/regulatory question of the Hazard analysis must be answered.",
              auditPassing := some false },
           [.postFailureComment issue "Hazard Analysis Completed" true])
        else
          match jsMatch dataRegex descriptionBody with
          | none =>
            ({ base with
                auditDetails := some (mismatchMsg "Data Integrity"),
                auditPassing := some false }, [])
          | some arr =>
            let tempStr := jsReplaceAll yesNoRegex false
              (jsReplaceAll dataRegex true (joinComma arr))
            if !(fillCheckTest tempStr) then
              ({ base with
                  auditDetails := some "The data integrity question of the Hazard analysis must be answered.",
                  auditPassing := some false },
               [.postFailureComment issue "Hazard Analysis Completed" true])
            else
              match jsMatch patientRegex descriptionBody with
              | none =>
                ({ base with
                    auditDetails := some (mismatchMsg "Patient Safety"),
                    auditPassing := some false }, [])
              | some arr =>
                let tempStr := jsReplaceAll yesNoRegex false
                  (jsReplaceAll patientRegex true (joinComma arr))
                if !(fillCheckTest tempStr) then
                  ({ base with
                      auditDetails := some "The patient safety question of the Hazard analysis must be answered.",
                      auditPassing := some false },
                   [.postFailureComment issue "Hazard Analysis Completed" true])
                else
                  match jsMatch cyberSecurityRegex descriptionBody with
                  | none =>
                    ({ base with
                        auditDetails := some (mismatchMsg "CyberSecurity/Information"),
                        auditPassing := some false }, [])
                  | some arr =>
                    let tempStr := jsReplaceAll yesNoRegex false
                      (jsReplaceAll engineerRegex false
                        (jsReplaceAll cyberSecurityRegex true (joinComma arr)))
                    if !(fillCheckTest tempStr) then
                      ({ base with
                          auditDetails := some "The cybersecurity/information question of the Hazard analysis must be answered.",
                          auditPassing := some false },
                       [.postFailureComment issue "Hazard Analysis Completed" true])
                    else
                      ({ base with
                          auditDetails := some "Hazard analysis has been completed for this sub-task.",
                          auditPassing := some true },
                       [.removeFailureComment issue "Hazard Analysis Completed"])

/-- `hazardAnalysisReviewed(issue)` (source lines 385–407). -/
def hazardAnalysisReviewed (env : Env) (issue : Issue) : AuditDetails × List Effect :=
  let base := AuditDetails.init "Hazard Analysis Reviewed" issue
  if env.findPlusOneCommentsLen issue == 0 then
    ({ base with
        auditDetails := some "Hazard Analysis must receive a \x27+1\x27 comment from a reviewer other than the author before the sub-task can be closed.",
        auditPassing := some false },
     [.findPlusOneComments issue, .postFailureComment issue "Hazard Analysis Reviewed" false])
  else
    ({ base with
        auditDetails := some "Hazard Analysis has received a \x27+1\x27 comment from a reviewer other than the author.",
        auditPassing := some true },
     [.findPlusOneComments issue, .removeFailureComment issue "Hazard Analysis Reviewed"])

/-- `cleanseSubTaskAudits(issue)` (source lines 415–429).  Note that the source sets
`auditDetails` but never `auditPassing` on the cleanse result. -/
def cleanseSubTaskAudits (env : Env) (issue : Issue) : AuditDetails × List Effect :=
  let cleanse := { AuditDetails.init "Hazard Analysis Sub-Task Cleanse" issue with
    auditDetails := some "All audit comments and labels will be removed from this sub-task" }
  match env.getSubTaskByName issue with
  | some subTask => (cleanse, [.handlePassFail subTask "Hazard Analysis Sub-Task Cleanse"])
  | none => (cleanse, [.removeFailureCommentByName issue "Issue Requires A Hazard Analysis Sub-Task"])

/-- Modelled from the spec: `issueHasOneSubTaskLink` is called at source line 67 but
its definition is not under `src/`; the spec describes it as "a generic 'exactly one
link' check" that fails when the sub-task has more than one Hazard-Analysis-type
link (ambiguous delegation). -/
def issueHasOneSubTaskLink (env : Env) (subTask : Issue) : AuditDetails × List Effect :=
  let base := AuditDetails.init "Hazard Analysis Sub-Task Has Exactly One Linked Sub-Task" subTask
  if (subTask.fields.issuelinks.filter env.isSubtaskLinkOfType).length == 1 then
    ({ base with
        auditDetails := some "Exactly one Hazard Analysis sub-task link is present.",
        auditPassing := some true }, [])
  else
    ({ base with
        auditDetails := some "More than one Hazard Analysis sub-task link is present, so the delegated audit target is ambiguous.",
        auditPassing := some false }, [])

/-- The linked-run combination step of `runHazardAnalysisAudits` (source lines
99–124): build one combined result over the collected partial results, posting it on
the original sub-task when any partial failed, clearing it otherwise. -/
def combineLinkedAudits (env : Env) (originalHazardSubTask : Issue)
    (allAuditResults : List AuditDetails) : AuditDetails × List Effect :=
  let auditComment := "\n\n" ++ String.join (allAuditResults.filterMap (fun audit =>
    if !audit.truthyPassing then some (env.generateAuditCommentText audit ++ "\n\n") else none))
  let base := AuditDetails.init "Linked Hazard Analysis Sub-Task Audit" originalHazardSubTask
  if !(allAuditResults.all (·.truthyPassing)) then
    ({ base with
        auditDetails := some ("The audit details below are currently failing for the linked sub-task and transitively causing this sub-task audit failure:\n\n{quote}"
          ++ auditComment ++ "{quote}"),
        auditPassing := some false },
     [.postFailureComment originalHazardSubTask "Linked Hazard Analysis Sub-Task Audit" true])
  else
    ({ base with
        auditDetails := some ("All audits for the linked Hazard Analysis sub-task have passed successfully:\\n\\n{quote}"
          ++ auditComment ++ "{quote}"),
        auditPassing := some true },
     [.removeFailureComment originalHazardSubTask "Linked Hazard Analysis Sub-Task Audit"])

/-- `runHazardAnalysisAudits(issue)` (source lines 18–142): the ordered,
short-circuiting audit pipeline, returning the aggregate audit and the ordered
trace of collaborator calls.  The `none` case after a passing existence check is
unreachable (the existence check passes exactly when `getSubTaskByName` is `some`). -/
def runHazardAnalysisAudits (env : Env) (issue : Issue) : AggregateAudit × List Effect :=
  let defineHazardAnalysis := env.getSubTaskByName issue
  let agg0 : AggregateAudit :=
    { base := AuditDetails.init "Hazard Analysis Sub-Task Audit" (defineHazardAnalysis.getD issue) }
  if resolutionBeforeCutoff issue then
    ({ agg0 with base := { agg0.base with
        auditPassing := some true, auditDetails := some grandfatherDetail } }, [])
  else if env.issueContainsIgnoreLabel issue then
    let cleansed := cleanseSubTaskAudits env issue
    ({ agg0 with base := { agg0.base with auditDetails := some "Audit ignored" } }, cleansed.2)
  else
    let existCheck := issueHasHazardAnalysisSubTask env issue
    let agg1 := agg0.add existCheck.1
    if !existCheck.1.truthyPassing then (agg1, existCheck.2)
    else
      match defineHazardAnalysis with
      | none => (agg1, existCheck.2)
      | some subTask =>
        let nwn := isNoWorkNeededResolutionValid env issue subTask
        match nwn.1 with
        | some nwnRes =>
          let agg2 := agg1.add nwnRes
          (agg2, existCheck.2 ++ nwn.2 ++ [.handlePassFail subTask "Hazard Analysis Sub-Task Audit"])
        | none =>
          match subTask.fields.issuelinks.filter env.isSubtaskLinkOfType with
          | link :: _ =>
            let oneLink := issueHasOneSubTaskLink env subTask
            let agg2 := agg1.add oneLink.1
            if !oneLink.1.truthyPassing then
              (agg2, existCheck.2 ++ nwn.2 ++ oneLink.2
                ++ [.handlePassFail subTask "Hazard Analysis Sub-Task Audit"])
            else
              let linkedTarget := env.getIssueFromLink link
              let agg3 := (agg2.add (env.subTaskClosed subTask)).add
                (env.isAssigneeIndicated subTask)
              let complete := hazardAnalysisComplete linkedTarget
              let allAuditResults := [env.isAssigneeIndicated linkedTarget, complete.1]
                ++ (if complete.1.truthyPassing then [(hazardAnalysisReviewed env linkedTarget).1]
                    else [])
              let combined := combineLinkedAudits env subTask allAuditResults
              let agg4 := agg3.add combined.1
              (agg4,
               existCheck.2 ++ nwn.2 ++ oneLink.2
                 ++ [.getIssueFromLink link, .subTaskClosedCheck subTask,
                     .isAssigneeIndicatedCheck subTask, .isAssigneeIndicatedCheck linkedTarget]
                 ++ complete.2
                 ++ (if complete.1.truthyPassing then (hazardAnalysisReviewed env linkedTarget).2
                     else [])
                 ++ combined.2 ++ [.handlePassFail subTask "Hazard Analysis Sub-Task Audit"])
          | [] =>
            let complete := hazardAnalysisComplete subTask
            let allAuditResults :=
              [env.subTaskClosed subTask, env.isAssigneeIndicated subTask, complete.1]
                ++ (if complete.1.truthyPassing then [(hazardAnalysisReviewed env subTask).1]
                    else [])
            let agg2 := agg1.addAll allAuditResults
            (agg2,
             existCheck.2 ++ nwn.2
               ++ [.subTaskClosedCheck subTask, .isAssigneeIndicatedCheck subTask]
               ++ complete.2
               ++ (if complete.1.truthyPassing then (hazardAnalysisReviewed env subTask).2 else [])
               ++ [.removeFailureCommentByName subTask "Linked Hazard Analysis Sub-Task Audit",
                   .handlePassFail subTask "Hazard Analysis Sub-Task Audit"])

/-! ## Template description family

A parametric Hazard Analysis description in the shape the five source patterns
expect (bold Jira headers `*Name:*`, one answer per section, a trailing Engineer
signature block), used to state the completeness-validator claims on a
representative family of inputs. -/

/-- The five bold section headers, in template order. -/
def templateHeader : Fin 5 → String
  | 0 => "*Financial:* "
  | 1 => "*Legal/Regulatory:* "
  | 2 => "*Data Integrity:* "
  | 3 => "*Patient Safety:* "
  | 4 => "*CyberSecurity/Information Security:* "

/-- A description with the headers selected by `present` and the given answers,
one section per line, ending in an Engineer signature block. -/
def mkHazardDescription (present : Fin 5 → Bool) (ans : Fin 5 → String) : String :=
  (if present 0 then templateHeader 0 else "") ++ ans 0 ++ "\n"
    ++ (if present 1 then templateHeader 1 else "") ++ ans 1 ++ "\n"
    ++ (if present 2 then templateHeader 2 else "") ++ ans 2 ++ "\n"
    ++ (if present 3 then templateHeader 3 else "") ++ ans 3 ++ "\n"
    ++ (if present 4 then templateHeader 4 else "") ++ ans 4 ++ "\nEngineer: John Doe"

/-- The same description family with plain (unbolded) headers, where nothing but
whitespace separates a colon from its answer. -/
def plainHeadersDescription (a5 : String) : String :=
  "Financial: Yes\nLegal/Regulatory: Yes\nData Integrity: Yes\nPatient Safety: Yes\nCyberSecurity/Information Security: "
    ++ a5 ++ "\nEngineer: John Doe"

/-- An issue whose only relevant field is its description. -/
def issueWithDescription (d : String) : Issue :=
  { key := "SUB-1", fields := { description := d } }

/-- Every question genuinely answered. -/
def allYesAnswers : Fin 5 → String := fun _ => "Yes"

/-- The two placeholder forms left by the template. -/
def placeholderText : Bool → String
  | true => "<yes/no>"
  | false => "<yes or no. if yes, explain why>"

/-- The question name used in each template-mismatch message (the source writes
"CyberSecurity/Information", without "Security", in the fifth message). -/
def questionName : Fin 5 → String
  | 0 => "Financial"
  | 1 => "Legal/Regulatory"
  | 2 => "Data Integrity"
  | 3 => "Patient Safety"
  | 4 => "CyberSecurity/Information"

/-- The per-question "must be answered" messages, in template order. -/
def unansweredMsg : Fin 5 → String
  | 0 => "The financial question of the Hazard analysis must be answered."
  | 1 => "The legal/regulatory question of the Hazard analysis must be answered."
  | 2 => "The data integrity question of the Hazard analysis must be answered."
  | 3 => "The patient safety question of the Hazard analysis must be answered."
  | 4 => "The cybersecurity/information question of the Hazard analysis must be answered."

/-- The question whose header-to-header pattern breaks when header `i` is removed:
each pattern terminates at the next section's header, so removing header `i`
breaks the pattern of question `i - 1` (and removing the first header breaks the
Financial pattern itself). -/
def blamedQuestion : Fin 5 → Fin 5
  | 0 => 0
  | 1 => 0
  | 2 => 1
  | 3 => 2
  | 4 => 3

/-- All five template-mismatch detail texts. -/
def templateMismatchDetails : List String :=
  (List.finRange 5).map (fun i => mismatchMsg (questionName i))

/-- All five unanswered-question detail texts. -/
def unansweredDetails : List String := (List.finRange 5).map unansweredMsg

/-! ## Auxiliary observations -/

/-- Whether the pass flag and the detail text of a result were set together
(both assigned, or neither). -/
def flagDetailTogether (a : AuditDetails) : Bool :=
  a.auditPassing.isSome == a.auditDetails.isSome

/-- Exact list-head comparison, for the substring test. -/
def listStartsWith : List Char → List Char → Bool
  | [], _ => true
  | _ :: _, [] => false
  | p :: ps, c :: cs => p == c && listStartsWith ps cs

/-- Substring scan over character lists. -/
def containsSubAux (pat : List Char) : List Char → Bool
  | [] => pat.isEmpty
  | c :: cs => listStartsWith pat (c :: cs) || containsSubAux pat cs

/-- Whether `pat` occurs as a contiguous substring of `s`. -/
def strContainsSub (s pat : String) : Bool := containsSubAux pat.data s.data

/-- Whether a trace event witnesses the execution of one of the core checks
(sub-task closed, assignee indicated, completeness, peer review): either the call
marker of a shared check, or a comment operation bearing the completeness or
review audit name. -/
def coreCheckEffect : Effect → Bool
  | .subTaskClosedCheck _ => true
  | .isAssigneeIndicatedCheck _ => true
  | .findPlusOneComments _ => true
  | .postFailureComment _ n _ => n == "Hazard Analysis Completed" || n == "Hazard Analysis Reviewed"
  | .removeFailureComment _ n => n == "Hazard Analysis Completed" || n == "Hazard Analysis Reviewed"
  | _ => false

/-- The passing detail text of the no-work-needed validation. -/
def noWorkNeededPassDetail (parentIssue subTask : Issue) : String :=
  "Hazard analysis resolution of " ++ jsResolutionName subTask
    ++ " is valid since the parent issue was closed with a "
    ++ jsResolutionName parentIssue ++ " resolution."

/-! ## Concrete fixtures for witnesses and counterexamples -/

/-- A fully answered bold-header description. -/
def descAllYes : String := mkHazardDescription (fun _ => true) allYesAnswers

/-- A Hazard-Analysis-type issue link. -/
def linkW : IssueLink := { linkKey := "LINK-1" }

/-- A second Hazard-Analysis-type issue link. -/
def linkW2 : IssueLink := { linkKey := "LINK-2" }

/-- A Hazard Analysis sub-task with no issue links. -/
def subTaskW : Issue := { key := "SUB-1", fields := { description := descAllYes } }

/-- A Hazard Analysis sub-task with exactly one Hazard-Analysis-type link. -/
def subTaskLinkedW : Issue := { key := "SUB-2", fields := { issuelinks := [linkW] } }

/-- A Hazard Analysis sub-task with two Hazard-Analysis-type links. -/
def subTaskTwoLinksW : Issue := { key := "SUB-3", fields := { issuelinks := [linkW, linkW2] } }

/-- A parent issue with no resolution date. -/
def parentIssueW : Issue := { key := "PARENT-1" }

/-- An issue resolved at the epoch, well before the audit cutoff. -/
def oldIssueW : Issue := { key := "OLD-1", fields := { resolutionDate := some 0 } }

/-- The link target, carrying a fully answered description. -/
def targetIssueW : Issue := { key := "TARGET-1", fields := { description := descAllYes } }

/-- A shared-library check result with both fields set (passing). -/
def passBothW (name : String) (i : Issue) : AuditDetails :=
  { auditName := name, subject := i, auditPassing := some true, auditDetails := some "ok" }

/-- A baseline environment: no sub-task, no labels, no links, shared checks pass. -/
def envBase : Env :=
  { getSubTaskByName := fun _ => none
    issueContainsIgnoreLabel := fun _ => false
    issueHasNoWorkNeededResolution := fun _ => false
    isSubtaskLinkOfType := fun _ => false
    getIssueFromLink := fun _ => targetIssueW
    findPlusOneCommentsLen := fun _ => 1
    subTaskClosed := passBothW "Sub-Task Closed"
    isAssigneeIndicated := passBothW "Assignee Indicated"
    generateAuditCommentText := fun a => a.auditDetails.getD "" }

/-- Environment where every issue carries the ignore-audit label. -/
def envIgnoreW : Env := { envBase with issueContainsIgnoreLabel := fun _ => true }

/-- Environment with a delegated (one-link) Hazard Analysis sub-task under
`PARENT-1`. -/
def envDelegW : Env :=
  { envBase with
    getSubTaskByName := fun i => if i.key == "PARENT-1" then some subTaskLinkedW else none
    isSubtaskLinkOfType := fun _ => true }

/-- Environment with an ambiguous (two-link) Hazard Analysis sub-task under
`PARENT-1`. -/
def envTwoLinksW : Env :=
  { envBase with
    getSubTaskByName := fun i => if i.key == "PARENT-1" then some subTaskTwoLinksW else none
    isSubtaskLinkOfType := fun _ => true }

/-- Environment where only `SUB-1` is resolved no-work-needed (its parent is not). -/
def envNwnW : Env :=
  { envBase with issueHasNoWorkNeededResolution := fun i => i.key == "SUB-1" }

/-- Environment rendering an audit result as its audit name. -/
def envCombineW : Env := { envBase with generateAuditCommentText := fun a => a.auditName }

/-- A failing partial result for the combination fixture. -/
def failADW : AuditDetails :=
  { auditName := "Some Failing Audit", subject := parentIssueW,
    auditPassing := some false, auditDetails := some "failed" }

/-- The failing no-work-needed validation record on `subTaskW`. -/
def nwnFailRecordW : AuditDetails :=
  { AuditDetails.init "Hazard Analysis No Work Needed Resolution Validation" subTaskW with
    auditPassing := some false, auditDetails := some noWorkNeededFailDetail }


/-- Description with the Legal/Regulatory header removed and every answer filled. -/
def descLegalHeaderRemoved : String := mkHazardDescription (fun j => j != 1) allYesAnswers

/-- Issue whose description lacks the Legal/Regulatory header. -/
def mismatchIssueW : Issue := issueWithDescription descLegalHeaderRemoved

/-- Issue whose Financial answer was left as the placeholder. -/
def unansweredIssueW : Issue :=
  issueWithDescription
    (mkHazardDescription (fun _ => true) (fun j => if j == 0 then "<yes/no>" else "Yes"))

/-- Bold-header description with the CyberSecurity answer left as the placeholder. -/
def descCyberPlaceholder : String :=
  mkHazardDescription (fun _ => true) (fun j => if j == 4 then "<yes/no>" else "Yes")

/-! ## Claim theorems -/

/-- Claim C5: `isNoWorkNeededResolutionValid(parentIssue, subTask)` returns `null`
exactly when the sub-task does not have a no-work-needed resolution; when it does,
it returns a passing result if the parent issue also has a no-work-needed resolution
and a failing result otherwise (here stated exactly: the returned record carries the
parent's no-work-needed status as its pass flag, with the corresponding detail). -/
theorem C5_no_work_needed (env : Env) (parentIssue subTask : Issue) :
    ((isNoWorkNeededResolutionValid env parentIssue subTask).1 = none ↔
      env.issueHasNoWorkNeededResolution subTask = false)
    ∧ (env.issueHasNoWorkNeededResolution subTask = true →
        (isNoWorkNeededResolutionValid env parentIssue subTask).1 =
          some { auditName := "Hazard Analysis No Work Needed Resolution Validation",
                 subject := subTask,
                 auditPassing := some (env.issueHasNoWorkNeededResolution parentIssue),
                 auditDetails := some (if env.issueHasNoWorkNeededResolution parentIssue
                    then noWorkNeededPassDetail parentIssue subTask
                    else noWorkNeededFailDetail) }) := by
  cases hs : env.issueHasNoWorkNeededResolution subTask <;>
    cases hp : env.issueHasNoWorkNeededResolution parentIssue <;>
      simp [isNoWorkNeededResolutionValid, hs, hp, AuditDetails.init, noWorkNeededPassDetail]

/-- Witness for C5: a sub-task resolved no-work-needed under a normally resolved
parent yields the explicit failing validation record. -/
theorem C5_no_work_needed_witness :
    envNwnW.issueHasNoWorkNeededResolution subTaskW = true
    ∧ (isNoWorkNeededResolutionValid envNwnW parentIssueW subTaskW).1 = some nwnFailRecordW := by
  refine ⟨by decide, ?_⟩
  have h := (C5_no_work_needed envNwnW parentIssueW subTaskW).2 (by decide)
  rw [h]; decide

/-- Claim C6: for every issue whose resolution date is strictly before the
April 22nd, 2019 cutoff, `runHazardAnalysisAudits` returns a passing result with the
explanatory grandfather detail, collects no sub-results, and performs no
side-effecting collaborator call, regardless of every other field and of the
environment. -/
theorem C6_grandfathered (env : Env) (issue : Issue) (t : Int)
    (h1 : issue.fields.resolutionDate = some t) (h2 : t < hazardAuditCutoffMillis) :
    (runHazardAnalysisAudits env issue).1.passing = true
    ∧ (runHazardAnalysisAudits env issue).1.base.auditPassing = some true
    ∧ (runHazardAnalysisAudits env issue).1.base.auditDetails = some grandfatherDetail
    ∧ (runHazardAnalysisAudits env issue).1.results = []
    ∧ (runHazardAnalysisAudits env issue).2 = [] := by
  have hb : resolutionBeforeCutoff issue = true := by
    simp [resolutionBeforeCutoff, h1, h2]
  simp [runHazardAnalysisAudits, hb, AggregateAudit.passing, AuditDetails.init,
    AuditDetails.truthyPassing]

/-- Witness for C6: an issue resolved at the epoch passes with an empty trace. -/
theorem C6_grandfathered_witness :
    oldIssueW.fields.resolutionDate = some 0
    ∧ (0 : Int) < hazardAuditCutoffMillis
    ∧ (runHazardAnalysisAudits envBase oldIssueW).1.passing = true
    ∧ (runHazardAnalysisAudits envBase oldIssueW).2 = [] := by
  refine ⟨rfl, by decide, ?_, ?_⟩
  · exact (C6_grandfathered envBase oldIssueW 0 rfl (by decide)).1
  · exact (C6_grandfathered envBase oldIssueW 0 rfl (by decide)).2.2.2.2

/-- Claim C7: for every issue (not grandfathered, not ignore-labelled) without a
Hazard Analysis sub-task, `runHazardAnalysisAudits` fails, its only collected result
is the sub-task-required failure whose guidance text contains the canonical template
link, the only side effect is posting that failure comment on the issue, and no
effect of the assignee-indicated, closed, completeness or peer-review checks occurs
in the trace. -/
theorem C7_missing_subtask (env : Env) (issue : Issue)
    (hdate : resolutionBeforeCutoff issue = false)
    (hlabel : env.issueContainsIgnoreLabel issue = false)
    (hsub : env.getSubTaskByName issue = none) :
    (runHazardAnalysisAudits env issue).1.passing = false
    ∧ (runHazardAnalysisAudits env issue).1.results =
        [{ auditName := "Issue Requires A Hazard Analysis Sub-Task", subject := issue,
           auditPassing := some false, auditDetails := some subTaskRequiredDetail }]
    ∧ strContainsSub subTaskRequiredDetail templateLink = true
    ∧ (runHazardAnalysisAudits env issue).2 =
        [Effect.postFailureComment issue "Issue Requires A Hazard Analysis Sub-Task" false]
    ∧ (runHazardAnalysisAudits env issue).2.all (fun e => !(coreCheckEffect e)) = true := by
  have hex : issueHasHazardAnalysisSubTask env issue =
      ({ auditName := "Issue Requires A Hazard Analysis Sub-Task", subject := issue,
         auditPassing := some false, auditDetails := some subTaskRequiredDetail },
       [Effect.postFailureComment issue "Issue Requires A Hazard Analysis Sub-Task" false]) := by
    simp [issueHasHazardAnalysisSubTask, hsub, AuditDetails.init]
  refine ⟨?_, ?_, by decide, ?_, ?_⟩ <;>
    simp [runHazardAnalysisAudits, hdate, hlabel, hsub, hex, AggregateAudit.passing,
      AggregateAudit.add, AuditDetails.truthyPassing, AuditDetails.init, coreCheckEffect]

/-- Witness for C7: a plain issue with no sub-task under the baseline environment
fails with exactly the one posted comment. -/
theorem C7_missing_subtask_witness :
    resolutionBeforeCutoff parentIssueW = false
    ∧ (runHazardAnalysisAudits envBase parentIssueW).1.passing = false
    ∧ (runHazardAnalysisAudits envBase parentIssueW).2 =
        [Effect.postFailureComment parentIssueW "Issue Requires A Hazard Analysis Sub-Task" false] := by
  refine ⟨by decide, ?_, ?_⟩
  · exact (C7_missing_subtask envBase parentIssueW (by decide) rfl rfl).1
  · exact (C7_missing_subtask envBase parentIssueW (by decide) rfl rfl).2.2.2.1

/-- Claim C8: the combined result built for a delegated run (the combination step
of `runHazardAnalysisAudits`) passes exactly when every collected partial result
passes, and on failure its detail is the quoted-block concatenation of the rendered
text of every failing partial result. -/
theorem C8_combined_aggregate (env : Env) (orig : Issue) (rs : List AuditDetails) :
    (combineLinkedAudits env orig rs).1.auditPassing = some (rs.all (·.truthyPassing))
    ∧ ((combineLinkedAudits env orig rs).1.auditPassing = some true ↔
        rs.all (·.truthyPassing) = true)
    ∧ (rs.all (·.truthyPassing) = false →
        (combineLinkedAudits env orig rs).1.auditDetails =
          some ("The audit details below are currently failing for the linked sub-task and transitively causing this sub-task audit failure:\n\n{quote}"
            ++ ("\n\n" ++ String.join (rs.filterMap (fun audit =>
                  if !audit.truthyPassing then some (env.generateAuditCommentText audit ++ "\n\n")
                  else none)))
            ++ "{quote}")) := by
  cases h : rs.all (·.truthyPassing) <;>
    simp [combineLinkedAudits, h, AuditDetails.init]

/-- Witness for C8: combining a single failing partial result yields the quoted
concatenation of its rendered text. -/
theorem C8_combined_aggregate_witness :
    ([failADW].all (·.truthyPassing) = false)
    ∧ (combineLinkedAudits envCombineW parentIssueW [failADW]).1.auditDetails =
        some ("The audit details below are currently failing for the linked sub-task and transitively causing this sub-task audit failure:\n\n{quote}"
          ++ ("\n\n" ++ String.join ([failADW].filterMap (fun audit =>
                if !audit.truthyPassing then some (envCombineW.generateAuditCommentText audit ++ "\n\n")
                else none)))
          ++ "{quote}") := by
  exact ⟨by decide,
    (C8_combined_aggregate envCombineW parentIssueW [failADW]).2.2 (by decide)⟩

/-- Counterexample to claim C9 as stated: on an ignore-labelled issue,
`runHazardAnalysisAudits` returns an aggregate whose detail text is set to
"Audit ignored" while its pass flag is left unset — the flag and the detail are not
set together. -/
theorem C9_counterexample :
    (runHazardAnalysisAudits envIgnoreW parentIssueW).1.base.auditDetails = some "Audit ignored"
    ∧ (runHazardAnalysisAudits envIgnoreW parentIssueW).1.base.auditPassing = none := by
  constructor <;> rfl

/-- Claim C10: the two failure kinds of `hazardAnalysisComplete` have different
side effects — a template-mismatch failure returns without posting any comment,
while an unanswered-question failure posts exactly one failure comment on the
audited issue. -/
theorem C10_failure_side_effects (issue : Issue) :
    (∀ m, (hazardAnalysisComplete issue).1.auditDetails = some m →
      m ∈ templateMismatchDetails → (hazardAnalysisComplete issue).2 = [])
    ∧ (∀ m, (hazardAnalysisComplete issue).1.auditDetails = some m →
      m ∈ unansweredDetails →
      (hazardAnalysisComplete issue).2 =
        [Effect.postFailureComment issue "Hazard Analysis Completed" true]) := by
  simp only [hazardAnalysisComplete]
  repeat' split
  all_goals
    refine ⟨fun m hm hmem => ?_, fun m hm hmem => ?_⟩ <;>
      dsimp only at hm ⊢ <;>
      (injection hm with hm; subst hm) <;>
      first
        | rfl
        | exact absurd hmem (by decide)

/-- Witness for C10: a description missing a header fails with an empty trace; a
description with a placeholder answer fails and posts the failure comment. -/
theorem C10_failure_side_effects_witness :
    (hazardAnalysisComplete mismatchIssueW).2 = []
    ∧ (hazardAnalysisComplete unansweredIssueW).2 =
        [Effect.postFailureComment unansweredIssueW "Hazard Analysis Completed" true] := by
  constructor
  · exact (C10_failure_side_effects mismatchIssueW).1 (mismatchMsg "Financial")
      (by decide) (by decide)
  · exact (C10_failure_side_effects unansweredIssueW).2 (unansweredMsg 0)
      (by decide) (by decide)

/-- Counterexample to claim C1 as stated: removing only the Legal/Regulatory
header from an otherwise intact, fully answered template makes
`hazardAnalysisComplete` fail with the message naming the Financial section (whose
pattern terminates at the removed header), not the removed Legal/Regulatory
section. -/
theorem C1_counterexample :
    (hazardAnalysisComplete mismatchIssueW).1.auditPassing = some false
    ∧ (hazardAnalysisComplete mismatchIssueW).1.auditDetails = some (mismatchMsg "Financial")
    ∧ (hazardAnalysisComplete mismatchIssueW).1.auditDetails ≠
        some (mismatchMsg "Legal/Regulatory") := by
  have h : hazardAnalysisComplete mismatchIssueW =
      ({ auditName := "Hazard Analysis Completed", subject := mismatchIssueW,
         auditPassing := some false, auditDetails := some (mismatchMsg "Financial") }, []) := by
    decide
  rw [h]
  exact ⟨rfl, rfl, by decide⟩

/-- Claim C1 (amended): removing exactly one header from a fully answered
template makes `hazardAnalysisComplete` fail with a template-mismatch message and an
empty effect trace (no comment posted, later questions not evaluated), and the
section named is the one whose header-to-header pattern breaks: the Financial
section when the first header is removed, otherwise the section preceding the
removed header. -/
theorem C1_header_removal_blames_preceding (i : Fin 5) :
    (hazardAnalysisComplete (issueWithDescription
        (mkHazardDescription (fun j => j != i) allYesAnswers))).1.auditPassing = some false
    ∧ (hazardAnalysisComplete (issueWithDescription
        (mkHazardDescription (fun j => j != i) allYesAnswers))).1.auditDetails =
        some (mismatchMsg (questionName (blamedQuestion i)))
    ∧ (hazardAnalysisComplete (issueWithDescription
        (mkHazardDescription (fun j => j != i) allYesAnswers))).2 = [] := by
  fin_cases i <;> decide

/-- Counterexample to claim C2 as stated: with the bold-header template, leaving
the CyberSecurity/Information Security answer as exactly the `<yes/no>` placeholder
makes `hazardAnalysisComplete` pass (the header's trailing `*` survives the
stripping steps and counts as an answer) instead of failing as unanswered. -/
theorem C2_counterexample :
    strContainsSub descCyberPlaceholder "CyberSecurity/Information Security:" = true
    ∧ strContainsSub descCyberPlaceholder "<yes/no>" = true
    ∧ (hazardAnalysisComplete (issueWithDescription descCyberPlaceholder)).1.auditPassing =
        some true
    ∧ (hazardAnalysisComplete (issueWithDescription descCyberPlaceholder)).1.auditDetails =
        some "Hazard analysis has been completed for this sub-task." := by
  have h : hazardAnalysisComplete (issueWithDescription descCyberPlaceholder) =
      ({ auditName := "Hazard Analysis Completed",
         subject := issueWithDescription descCyberPlaceholder,
         auditPassing := some true,
         auditDetails := some "Hazard analysis has been completed for this sub-task." },
       [Effect.removeFailureComment (issueWithDescription descCyberPlaceholder)
          "Hazard Analysis Completed"]) := by
    decide
  exact ⟨by decide, by decide, by rw [h], by rw [h]⟩

/-- Claim C2 (amended): leaving one answer as either placeholder makes
`hazardAnalysisComplete` fail naming that question as unanswered and post one
failure comment, for the Financial, Legal/Regulatory, Data Integrity and Patient
Safety sections of the bold-header template; for the final
CyberSecurity/Information Security section this holds when nothing but whitespace
separates the colon from the placeholder (plain headers), the bold form being the
counterexample. -/
theorem C2_placeholder_answer (i : Fin 4) (b : Bool) :
    ((hazardAnalysisComplete (issueWithDescription (mkHazardDescription (fun _ => true)
        (fun j => if j == i.castSucc then placeholderText b else "Yes")))).1.auditPassing =
        some false
      ∧ (hazardAnalysisComplete (issueWithDescription (mkHazardDescription (fun _ => true)
        (fun j => if j == i.castSucc then placeholderText b else "Yes")))).1.auditDetails =
        some (unansweredMsg i.castSucc)
      ∧ (hazardAnalysisComplete (issueWithDescription (mkHazardDescription (fun _ => true)
        (fun j => if j == i.castSucc then placeholderText b else "Yes")))).2 =
        [Effect.postFailureComment (issueWithDescription (mkHazardDescription (fun _ => true)
          (fun j => if j == i.castSucc then placeholderText b else "Yes")))
          "Hazard Analysis Completed" true])
    ∧ ((hazardAnalysisComplete (issueWithDescription
          (plainHeadersDescription (placeholderText b)))).1.auditPassing = some false
      ∧ (hazardAnalysisComplete (issueWithDescription
          (plainHeadersDescription (placeholderText b)))).1.auditDetails =
          some (unansweredMsg 4)) := by
  have hplain : ∀ b : Bool,
      (hazardAnalysisComplete (issueWithDescription
          (plainHeadersDescription (placeholderText b)))).1.auditPassing = some false
      ∧ (hazardAnalysisComplete (issueWithDescription
          (plainHeadersDescription (placeholderText b)))).1.auditDetails =
          some (unansweredMsg 4) := by
    decide
  refine ⟨?_, hplain b⟩
  fin_cases i <;> cases b <;> decide

/-- Helper: every effect of the completeness check targets its own issue and bears
the completeness audit name. -/
theorem hazardAnalysisComplete_effects (issue : Issue) :
    ∀ e ∈ (hazardAnalysisComplete issue).2,
      e = Effect.postFailureComment issue "Hazard Analysis Completed" true
      ∨ e = Effect.removeFailureComment issue "Hazard Analysis Completed" := by
  simp only [hazardAnalysisComplete]
  repeat' split
  all_goals simp

/-- Helper: every effect of the review check targets its own issue and bears the
review audit name (or is the comment scan). -/
theorem hazardAnalysisReviewed_effects (env : Env) (issue : Issue) :
    ∀ e ∈ (hazardAnalysisReviewed env issue).2,
      e = Effect.findPlusOneComments issue
      ∨ e = Effect.postFailureComment issue "Hazard Analysis Reviewed" false
      ∨ e = Effect.removeFailureComment issue "Hazard Analysis Reviewed" := by
  simp only [hazardAnalysisReviewed]
  split <;> simp

/-- Helper: the combination step posts or clears exactly one linked-audit comment
on the original sub-task. -/
theorem combineLinkedAudits_effects (env : Env) (orig : Issue) (rs : List AuditDetails) :
    (combineLinkedAudits env orig rs).2 =
      [Effect.postFailureComment orig "Linked Hazard Analysis Sub-Task Audit" true]
    ∨ (combineLinkedAudits env orig rs).2 =
      [Effect.removeFailureComment orig "Linked Hazard Analysis Sub-Task Audit"] := by
  unfold combineLinkedAudits
  split <;> simp

/-- Helper: the existence check on an issue with a sub-task. -/
theorem issueHasHazardAnalysisSubTask_some (env : Env) (issue subTask : Issue)
    (h : env.getSubTaskByName issue = some subTask) :
    issueHasHazardAnalysisSubTask env issue =
      ({ auditName := "Issue Requires A Hazard Analysis Sub-Task", subject := issue,
         auditPassing := some true,
         auditDetails := some "Hazard Analysis sub-task is required and present" },
       [Effect.removeFailureComment issue "Issue Requires A Hazard Analysis Sub-Task"]) := by
  simp [issueHasHazardAnalysisSubTask, h, AuditDetails.init]

/-- Helper: the no-work-needed validation on a normally resolved sub-task. -/
theorem isNoWorkNeededResolutionValid_none (env : Env) (parentIssue subTask : Issue)
    (h : env.issueHasNoWorkNeededResolution subTask = false) :
    isNoWorkNeededResolutionValid env parentIssue subTask =
      (none,
       [Effect.removeFailureComment subTask
          "Hazard Analysis No Work Needed Resolution Validation"]) := by
  simp [isNoWorkNeededResolutionValid, h]

/-- Helper: the one-link check on a sub-task with exactly one matching link. -/
theorem issueHasOneSubTaskLink_one (env : Env) (subTask : Issue) (link : IssueLink)
    (h : subTask.fields.issuelinks.filter env.isSubtaskLinkOfType = [link]) :
    issueHasOneSubTaskLink env subTask =
      ({ auditName := "Hazard Analysis Sub-Task Has Exactly One Linked Sub-Task",
         subject := subTask, auditPassing := some true,
         auditDetails := some "Exactly one Hazard Analysis sub-task link is present." },
       []) := by
  simp [issueHasOneSubTaskLink, h, AuditDetails.init]

/-- Claim C3: on a delegated run (the sub-task has exactly one
Hazard-Analysis-type link), `runHazardAnalysisAudits` runs the completeness and
review checks against the link target (their effects in the trace, and the partial
results fed to the combination, are those computed on `env.getIssueFromLink link`),
and the combined linked-audit comment is posted (when the combination fails) or
cleared (when it passes) on the original sub-task and never on the link target. -/
theorem C3_delegation (env : Env) (issue subTask : Issue) (link : IssueLink)
    (hdate : resolutionBeforeCutoff issue = false)
    (hlabel : env.issueContainsIgnoreLabel issue = false)
    (hsub : env.getSubTaskByName issue = some subTask)
    (hnwn : env.issueHasNoWorkNeededResolution subTask = false)
    (hlinks : subTask.fields.issuelinks.filter env.isSubtaskLinkOfType = [link]) :
    (runHazardAnalysisAudits env issue).2 =
      [Effect.removeFailureComment issue "Issue Requires A Hazard Analysis Sub-Task",
       Effect.removeFailureComment subTask "Hazard Analysis No Work Needed Resolution Validation",
       Effect.getIssueFromLink link,
       Effect.subTaskClosedCheck subTask,
       Effect.isAssigneeIndicatedCheck subTask,
       Effect.isAssigneeIndicatedCheck (env.getIssueFromLink link)]
      ++ (hazardAnalysisComplete (env.getIssueFromLink link)).2
      ++ (if (hazardAnalysisComplete (env.getIssueFromLink link)).1.truthyPassing
          then (hazardAnalysisReviewed env (env.getIssueFromLink link)).2 else [])
      ++ (combineLinkedAudits env subTask
            ([env.isAssigneeIndicated (env.getIssueFromLink link),
              (hazardAnalysisComplete (env.getIssueFromLink link)).1]
              ++ (if (hazardAnalysisComplete (env.getIssueFromLink link)).1.truthyPassing
                  then [(hazardAnalysisReviewed env (env.getIssueFromLink link)).1] else []))).2
      ++ [Effect.handlePassFail subTask "Hazard Analysis Sub-Task Audit"]
    ∧ (∀ rs : List AuditDetails,
        (rs.all (·.truthyPassing) = false →
          (combineLinkedAudits env subTask rs).2 =
            [Effect.postFailureComment subTask "Linked Hazard Analysis Sub-Task Audit" true])
        ∧ (rs.all (·.truthyPassing) = true →
          (combineLinkedAudits env subTask rs).2 =
            [Effect.removeFailureComment subTask "Linked Hazard Analysis Sub-Task Audit"]))
    ∧ (subTask ≠ env.getIssueFromLink link →
        ∀ b, Effect.postFailureComment (env.getIssueFromLink link)
          "Linked Hazard Analysis Sub-Task Audit" b ∉ (runHazardAnalysisAudits env issue).2) := by
  have hex := issueHasHazardAnalysisSubTask_some env issue subTask hsub
  have hnw := isNoWorkNeededResolutionValid_none env issue subTask hnwn
  have hone := issueHasOneSubTaskLink_one env subTask link hlinks
  have htrace : (runHazardAnalysisAudits env issue).2 =
      [Effect.removeFailureComment issue "Issue Requires A Hazard Analysis Sub-Task",
       Effect.removeFailureComment subTask "Hazard Analysis No Work Needed Resolution Validation",
       Effect.getIssueFromLink link,
       Effect.subTaskClosedCheck subTask,
       Effect.isAssigneeIndicatedCheck subTask,
       Effect.isAssigneeIndicatedCheck (env.getIssueFromLink link)]
      ++ (hazardAnalysisComplete (env.getIssueFromLink link)).2
      ++ (if (hazardAnalysisComplete (env.getIssueFromLink link)).1.truthyPassing
          then (hazardAnalysisReviewed env (env.getIssueFromLink link)).2 else [])
      ++ (combineLinkedAudits env subTask
            ([env.isAssigneeIndicated (env.getIssueFromLink link),
              (hazardAnalysisComplete (env.getIssueFromLink link)).1]
              ++ (if (hazardAnalysisComplete (env.getIssueFromLink link)).1.truthyPassing
                  then [(hazardAnalysisReviewed env (env.getIssueFromLink link)).1] else []))).2
      ++ [Effect.handlePassFail subTask "Hazard Analysis Sub-Task Audit"] := by
    simp only [runHazardAnalysisAudits, hdate, hlabel, hsub, hex, hnw, hone, hlinks,
      Bool.false_eq_true, if_false, Bool.not_false, Bool.not_true, if_true,
      AuditDetails.truthyPassing, Option.getD_some, AuditDetails.init]
    simp [List.append_assoc]
  refine ⟨htrace, ?_, ?_⟩
  · intro rs
    constructor <;> intro hall <;>
      simp [combineLinkedAudits, hall, AuditDetails.init]
  · intro hne b hmem
    rw [htrace] at hmem
    simp only [List.mem_append] at hmem
    rcases hmem with ((((hA | hB) | hC) | hD) | hE)
    · simp at hA
    · rcases hazardAnalysisComplete_effects _ _ hB with h2 | h2
      · injection h2 with ht hn hb
        exact absurd hn (by decide)
      · exact Effect.noConfusion h2
    · rcases Bool.eq_false_or_eq_true
        ((hazardAnalysisComplete (env.getIssueFromLink link)).1.truthyPassing) with hc | hc
      · rw [hc] at hC
        simp only [reduceIte] at hC
        rcases hazardAnalysisReviewed_effects env _ _ hC with h2 | h2 | h2
        · exact Effect.noConfusion h2
        · injection h2 with ht hn hb
          exact absurd hn (by decide)
        · exact Effect.noConfusion h2
      · rw [hc] at hC
        simp at hC
    · rcases combineLinkedAudits_effects env subTask _ with h2 | h2 <;> rw [h2] at hD
      · simp only [List.mem_singleton] at hD
        injection hD with ht hn hb
        exact absurd ht.symm hne
      · simp at hD
    · simp at hE

/-- Witness for C3: in the concrete delegated fixture the linked-audit comment is
never posted on the link target. -/
theorem C3_delegation_witness :
    envDelegW.getSubTaskByName parentIssueW = some subTaskLinkedW
    ∧ subTaskLinkedW.fields.issuelinks.filter envDelegW.isSubtaskLinkOfType = [linkW]
    ∧ Effect.postFailureComment targetIssueW "Linked Hazard Analysis Sub-Task Audit" true ∉
        (runHazardAnalysisAudits envDelegW parentIssueW).2 := by
  refine ⟨by decide, by decide, ?_⟩
  exact (C3_delegation envDelegW parentIssueW subTaskLinkedW linkW
    (by decide) rfl (by decide) rfl (by decide)).2.2 (by decide) true

/-- Claim C4: when the sub-task has two or more Hazard-Analysis-type links,
`runHazardAnalysisAudits` fails immediately after the exactly-one-link check: the
trace ends at the pass/fail handler, `getIssueFromLink` is never called, and no
effect of the core checks (closed, assignee, completeness, review) occurs. -/
theorem C4_ambiguous_links (env : Env) (issue subTask : Issue) (l1 l2 : IssueLink)
    (rest : List IssueLink)
    (hdate : resolutionBeforeCutoff issue = false)
    (hlabel : env.issueContainsIgnoreLabel issue = false)
    (hsub : env.getSubTaskByName issue = some subTask)
    (hnwn : env.issueHasNoWorkNeededResolution subTask = false)
    (hlinks : subTask.fields.issuelinks.filter env.isSubtaskLinkOfType = l1 :: l2 :: rest) :
    (runHazardAnalysisAudits env issue).1.passing = false
    ∧ (runHazardAnalysisAudits env issue).2 =
        [Effect.removeFailureComment issue "Issue Requires A Hazard Analysis Sub-Task",
         Effect.removeFailureComment subTask "Hazard Analysis No Work Needed Resolution Validation",
         Effect.handlePassFail subTask "Hazard Analysis Sub-Task Audit"]
    ∧ (∀ l, Effect.getIssueFromLink l ∉ (runHazardAnalysisAudits env issue).2)
    ∧ (runHazardAnalysisAudits env issue).2.all (fun e => !(coreCheckEffect e)) = true := by
  have hex := issueHasHazardAnalysisSubTask_some env issue subTask hsub
  have hnw := isNoWorkNeededResolutionValid_none env issue subTask hnwn
  have hone : issueHasOneSubTaskLink env subTask =
      ({ auditName := "Hazard Analysis Sub-Task Has Exactly One Linked Sub-Task",
         subject := subTask, auditPassing := some false,
         auditDetails := some "More than one Hazard Analysis sub-task link is present, so the delegated audit target is ambiguous." },
       []) := by
    simp [issueHasOneSubTaskLink, hlinks, AuditDetails.init]
  have hrun : runHazardAnalysisAudits env issue =
      ({ base := AuditDetails.init "Hazard Analysis Sub-Task Audit" subTask,
         results :=
          [{ auditName := "Issue Requires A Hazard Analysis Sub-Task", subject := issue,
             auditPassing := some true,
             auditDetails := some "Hazard Analysis sub-task is required and present" },
           { auditName := "Hazard Analysis Sub-Task Has Exactly One Linked Sub-Task",
             subject := subTask, auditPassing := some false,
             auditDetails := some "More than one Hazard Analysis sub-task link is present, so the delegated audit target is ambiguous." }] },
       [Effect.removeFailureComment issue "Issue Requires A Hazard Analysis Sub-Task",
        Effect.removeFailureComment subTask "Hazard Analysis No Work Needed Resolution Validation",
        Effect.handlePassFail subTask "Hazard Analysis Sub-Task Audit"]) := by
    simp only [runHazardAnalysisAudits, hdate, hlabel, hsub, hex, hnw, hone, hlinks,
      Bool.false_eq_true, if_false, Bool.not_false, Bool.not_true, if_true,
      AuditDetails.truthyPassing, Option.getD_some, AuditDetails.init]
    simp [AggregateAudit.add]
  rw [hrun]
  refine ⟨?_, rfl, ?_, ?_⟩
  · simp [AggregateAudit.passing, AuditDetails.truthyPassing, AuditDetails.init]
  · intro l
    simp
  · simp [coreCheckEffect]

/-- Witness for C4: the two-link fixture fails with no link resolution. -/
theorem C4_ambiguous_links_witness :
    subTaskTwoLinksW.fields.issuelinks.filter envTwoLinksW.isSubtaskLinkOfType =
      [linkW, linkW2]
    ∧ (runHazardAnalysisAudits envTwoLinksW parentIssueW).1.passing = false
    ∧ (∀ l, Effect.getIssueFromLink l ∉ (runHazardAnalysisAudits envTwoLinksW parentIssueW).2) := by
  have h := C4_ambiguous_links envTwoLinksW parentIssueW subTaskTwoLinksW linkW linkW2 []
    (by decide) rfl (by decide) rfl (by decide)
  exact ⟨by decide, h.1, h.2.2.1⟩

/-- Claim C9 (amended): every result returned by the module's operations has its
pass flag and detail text set together — except the ignore-label aggregate of
`runHazardAnalysisAudits` and the result of `cleanseSubTaskAudits`, which set the
detail text while leaving the pass flag unset. -/
theorem C9_amended (env : Env) (issue parentIssue subTask : Issue) :
    flagDetailTogether (issueHasHazardAnalysisSubTask env issue).1 = true
    ∧ (∀ r, (isNoWorkNeededResolutionValid env parentIssue subTask).1 = some r →
        flagDetailTogether r = true)
    ∧ flagDetailTogether (hazardAnalysisComplete issue).1 = true
    ∧ flagDetailTogether (hazardAnalysisReviewed env issue).1 = true
    ∧ ((cleanseSubTaskAudits env issue).1.auditDetails.isSome = true
        ∧ (cleanseSubTaskAudits env issue).1.auditPassing = none)
    ∧ (resolutionBeforeCutoff issue = false → env.issueContainsIgnoreLabel issue = true →
        (runHazardAnalysisAudits env issue).1.base.auditDetails.isSome = true
        ∧ (runHazardAnalysisAudits env issue).1.base.auditPassing = none) := by
  refine ⟨?_, ?_, ?_, ?_, ?_, ?_⟩
  · unfold issueHasHazardAnalysisSubTask
    split <;> rfl
  · intro r hr
    simp only [isNoWorkNeededResolutionValid] at hr
    split at hr
    · simp at hr
    · split at hr <;>
        (dsimp only at hr; injection hr with hr; subst hr; rfl)
  · simp only [hazardAnalysisComplete]
    repeat' split
    all_goals rfl
  · unfold hazardAnalysisReviewed
    split <;> rfl
  · unfold cleanseSubTaskAudits
    split <;> exact ⟨rfl, rfl⟩
  · intro hdate hlabel
    simp only [runHazardAnalysisAudits, hdate, hlabel, Bool.false_eq_true, if_false, if_true]
    exact ⟨rfl, rfl⟩

/-- Witness for C9 (amended): the no-work-needed record has both fields set; the
ignore-label aggregate has only its detail set. -/
theorem C9_amended_witness :
    (isNoWorkNeededResolutionValid envNwnW parentIssueW subTaskW).1 = some nwnFailRecordW
    ∧ flagDetailTogether nwnFailRecordW = true
    ∧ (runHazardAnalysisAudits envIgnoreW parentIssueW).1.base.auditDetails.isSome = true
    ∧ (runHazardAnalysisAudits envIgnoreW parentIssueW).1.base.auditPassing = none := by
  refine ⟨by decide, ?_, ?_, ?_⟩
  · exact (C9_amended envNwnW parentIssueW parentIssueW subTaskW).2.1 nwnFailRecordW (by decide)
  · exact ((C9_amended envIgnoreW parentIssueW parentIssueW subTaskW).2.2.2.2.2
      (by decide) rfl).1
  · exact ((C9_amended envIgnoreW parentIssueW parentIssueW subTaskW).2.2.2.2.2
      (by decide) rfl).2

end HazardAnalysis
